import Mathlib

/-!
Verification of `src/flare_bypasser/async_client.py` (class `AsyncClient`):
an httpx wrapper that classifies 403 HTML responses as Cloudflare hard
blocks or solvable challenges, delegates challenge solving to an external
solver service, applies the returned identity (user-agent + cookies) to the
session, and retries the request up to a fixed number of attempts.

The embedding is shallow: the mutable client state (`_user_agent` and the
httpx cookie jar) is threaded explicitly, the transport and the solver
service are oracles (functions from call index to response), and every
Python `raise` site becomes a constructor of an error type.  The regular
expressions of the classifier (lines 80-110 of the source) all fall in a
tiny fragment - sequences of literal strings, `\s`, `\s*` and `[^><]*` -
which is embedded as a list of segments with an executable backtracking
matcher equivalent to `re.search` on that fragment.
-/

namespace FlareBypasser

/-- Whitespace test modelling Python's `\s` character class (ASCII range;
the source only ever matches it against ASCII markup). -/
def isWS (c : Char) : Bool :=
  c == ' ' || c == '\t' || c == '\n' || c == '\r' || c == '\x0b' || c == '\x0c'

/-- One segment of a regular expression in the fragment used by the source:
a literal string, a single mandatory whitespace (`\s`), zero-or-more
whitespace (`\s*`), or zero-or-more characters other than `<` and `>`
(`[^><]*`). -/
inductive Seg where
  | lit (s : List Char)
  | wsOne
  | wsStar
  | naStar
deriving Repr, DecidableEq

/-- Backtracking matcher for a sequence of segments against a prefix of
`cs` (the rest of the string may be anything): true iff some way of
consuming characters for the starred segments lets every segment match.
The `fuel` argument only makes the recursion structural (so that the
kernel can evaluate the matcher on concrete pages); every recursive call
strictly decreases `2 * cs.length + segs.length`, so any fuel above that
measure gives the same answer - `matchSegsGo_fuel` below proves it. -/
def matchSegsGo : Nat → List Seg → List Char → Bool
  | 0, _, _ => false
  | _ + 1, [], _ => true
  | fuel + 1, .lit s :: rest, cs =>
      s.isPrefixOf cs && matchSegsGo fuel rest (cs.drop s.length)
  | _ + 1, .wsOne :: _, [] => false
  | fuel + 1, .wsOne :: rest, c :: cs => isWS c && matchSegsGo fuel rest cs
  | fuel + 1, .wsStar :: rest, cs =>
      matchSegsGo fuel rest cs ||
        (match cs with
         | [] => false
         | c :: cs' => isWS c && matchSegsGo fuel (.wsStar :: rest) cs')
  | fuel + 1, .naStar :: rest, cs =>
      matchSegsGo fuel rest cs ||
        (match cs with
         | [] => false
         | c :: cs' =>
             !(c == '<') && !(c == '>') && matchSegsGo fuel (.naStar :: rest) cs')

/-- The matcher at its sufficient fuel; this is `re.search` anchored at
the start of `cs`. -/
def matchSegs (segs : List Seg) (cs : List Char) : Bool :=
  matchSegsGo (2 * cs.length + segs.length + 1) segs cs

/-- Any two fuels above the recursion measure give the same result, so
`matchSegs` is the total backtracking matcher and the fuel is an artifact
of the embedding, not a semantic bound. -/
theorem matchSegsGo_fuel :
    ∀ f f' segs cs, 2 * cs.length + segs.length < f →
      2 * cs.length + segs.length < f' →
      matchSegsGo f segs cs = matchSegsGo f' segs cs := by
  intro f
  induction f with
  | zero => intro f' segs cs h; omega
  | succ f ih =>
    intro f' segs cs h h'
    match f', h' with
    | f' + 1, h' =>
      match segs with
      | [] => rfl
      | .lit s :: rest =>
        simp only [matchSegsGo]
        rw [ih f' rest (cs.drop s.length)
          (by simp [List.length_drop] at *; omega)
          (by simp [List.length_drop] at *; omega)]
      | .wsOne :: rest =>
        match cs with
        | [] => rfl
        | c :: cs =>
          simp only [matchSegsGo]
          rw [ih f' rest cs (by simp at *; omega) (by simp at *; omega)]
      | .wsStar :: rest =>
        match cs with
        | [] =>
          show (matchSegsGo f rest [] || false) = (matchSegsGo f' rest [] || false)
          rw [ih f' rest [] (by simp at *; omega) (by simp at *; omega)]
        | c :: cs' =>
          show (matchSegsGo f rest (c :: cs') ||
              (isWS c && matchSegsGo f (.wsStar :: rest) cs')) =
            (matchSegsGo f' rest (c :: cs') ||
              (isWS c && matchSegsGo f' (.wsStar :: rest) cs'))
          rw [ih f' rest (c :: cs') (by simp at *; omega) (by simp at *; omega),
            ih f' (.wsStar :: rest) cs' (by simp at *; omega)
              (by simp at *; omega)]
      | .naStar :: rest =>
        match cs with
        | [] =>
          show (matchSegsGo f rest [] || false) = (matchSegsGo f' rest [] || false)
          rw [ih f' rest [] (by simp at *; omega) (by simp at *; omega)]
        | c :: cs' =>
          show (matchSegsGo f rest (c :: cs') ||
              (!(c == '<') && !(c == '>') && matchSegsGo f (.naStar :: rest) cs')) =
            (matchSegsGo f' rest (c :: cs') ||
              (!(c == '<') && !(c == '>') && matchSegsGo f' (.naStar :: rest) cs'))
          rw [ih f' rest (c :: cs') (by simp at *; omega) (by simp at *; omega),
            ih f' (.naStar :: rest) cs' (by simp at *; omega)
              (by simp at *; omega)]

/-- Python `re.search`: the pattern matches starting at some position of
the text. -/
def reSearch (p : List Seg) : List Char → Bool
  | [] => matchSegs p []
  | c :: cs => matchSegs p (c :: cs) || reSearch p cs

/-- Python's substring operator `needle in hay` for strings. -/
def containsSub (needle : List Char) : List Char → Bool
  | [] => needle.isPrefixOf []
  | c :: cs => needle.isPrefixOf (c :: cs) || containsSub needle cs

/-- Segments for `<\s*title\s*>`. -/
def titleOpen : List Seg :=
  [.lit "<".toList, .wsStar, .lit "title".toList, .wsStar, .lit ">".toList]

/-- Segments for `<\s*/\s*title\s*>`. -/
def titleClose : List Seg :=
  [.lit "<".toList, .wsStar, .lit "/".toList, .wsStar, .lit "title".toList,
   .wsStar, .lit ">".toList]

/-- Source line 84: `<\s*title\s*>\s*access denied\s[^><]*cloudflare[^><]*<\s*/\s*title\s*>`. -/
def accessDeniedTitleRe : List Seg :=
  titleOpen ++
    [.wsStar, .lit "access denied".toList, .wsOne, .naStar,
     .lit "cloudflare".toList, .naStar] ++ titleClose

/-- Source line 88: `<\s*title\s*>\s*ip banned[^><]*<\s*/\s*title\s*>`. -/
def ipBannedTitleRe : List Seg :=
  titleOpen ++ [.wsStar, .lit "ip banned".toList, .naStar] ++ titleClose

/-- Source line 97: `<\s*title\s*>[^><]*just a moment\.\.\.[^><]*<\s*/\s*title\s*>`. -/
def justAMomentTitleRe : List Seg :=
  titleOpen ++ [.naStar, .lit "just a moment...".toList, .naStar] ++ titleClose

/-- Source line 101: `<\s*title\s*>[^><]*attention required\s*![^><]*<\s*/\s*title\s*>`. -/
def attentionRequiredTitleRe : List Seg :=
  titleOpen ++
    [.naStar, .lit "attention required".toList, .wsStar, .lit "!".toList,
     .naStar] ++ titleClose

/-- Source line 105: `<\s*title\s*>[^><]*captcha challenge[^><]*<\s*/\s*title\s*>`. -/
def captchaChallengeTitleRe : List Seg :=
  titleOpen ++ [.naStar, .lit "captcha challenge".toList, .naStar] ++ titleClose

/-- Source line 109: `<\s*title\s*>[^><]*ddos-guard[^><]*<\s*/\s*title\s*>`. -/
def ddosGuardTitleRe : List Seg :=
  titleOpen ++ [.naStar, .lit "ddos-guard".toList, .naStar] ++ titleClose

/-- Lower-casing of the response text, `response.text.lower()` at source
line 78 (`Char.toLower` agrees with Python on the ASCII block-page markup
the classifier inspects). -/
def lowerText (s : String) : List Char :=
  s.toList.map Char.toLower

/-- Hard-block test on the lowered response text, source lines 81-90. -/
def isHardBlock (rt : List Char) : Bool :=
  (containsSub "access denied".toList rt && reSearch accessDeniedTitleRe rt) ||
    (containsSub "ip banned".toList rt && containsSub "cloudflare".toList rt &&
      reSearch ipBannedTitleRe rt)

/-- Challenge test on the lowered response text, source lines 94-110. -/
def isChallenge (rt : List Char) : Bool :=
  (containsSub "just a moment...".toList rt && reSearch justAMomentTitleRe rt) ||
    (containsSub "attention required!".toList rt &&
      reSearch attentionRequiredTitleRe rt) ||
    (containsSub "captcha challenge".toList rt &&
      reSearch captchaChallengeTitleRe rt) ||
    (containsSub "ddos-guard".toList rt && reSearch ddosGuardTitleRe rt)

/-- The part of an httpx response the client inspects: status code, the
`content-type` header (empty string when absent, as `headers.get` with
default `''`), and the decoded body text. -/
structure Response where
  status_code : Nat
  content_type : String
  text : String
deriving Repr, DecidableEq

/-- Classification of a response, as in spec section 4.1.  The source has
no explicit tag type: `ok` is the pass-through when the guard at lines
73-77 fails, `unrelated` the pass-through when it holds but no pattern
matches, and `hardBlock` / `challenge` are the two pattern branches. -/
inductive Classification where
  | ok
  | hardBlock
  | challenge
  | unrelated
deriving Repr, DecidableEq

/-- Python's `str.startswith`, on the underlying character lists (the
`String.startsWith` of the library is kernel-opaque). -/
def startsWithStr (s pre : String) : Bool :=
  pre.toList.isPrefixOf s.toList

/-- Response classification, source lines 73-110: patterns are only ever
consulted for a 403 with a `text/html` content-type and non-empty body,
the hard-block test runs before the challenge test, and both run on the
lower-cased text. -/
def classify (r : Response) : Classification :=
  if r.status_code == 403 && startsWithStr r.content_type "text/html" &&
      !(r.text == "") then
    let rt := lowerText r.text
    if isHardBlock rt then .hardBlock
    else if isChallenge rt then .challenge
    else .unrelated
  else .ok

/-- A cookie of the jar (`http.cookiejar.Cookie` as used by the source:
the seven fields snapshotted at lines 126-134). -/
structure Cookie where
  name : String
  value : String
  domain : String
  path : String
  port : Option String
  secure : Bool
  expires : Option Int
deriving Repr, DecidableEq

/-- The mutable identity of the client: `_user_agent` (line 20) plus the
cookie jar of `_http_client.cookies`.  The jar is modelled as a list; the
real jar is a nested dict keyed by domain/path/name, so replacement keeps
the slot while here it moves the cookie to the back - membership by
(name, domain, path), which is all the claims speak about, agrees. -/
structure SessionState where
  user_agent : String
  cookies : List Cookie
deriving Repr, DecidableEq

/-- The base user-agent of line 20, used before the first solve. -/
def defaultUserAgent : String :=
  "Mozilla/5.0 (X11; Linux x86_64) AppleWebKit/537.36 (KHTML, like Gecko) Chrome/131.0.0.0 Safari/537.36"

/-- Session state at client construction: default user-agent, empty jar. -/
def initSessionState : SessionState :=
  { user_agent := defaultUserAgent, cookies := [] }

/-- `self._http_client.cookies.set(name, value, domain, path)` at lines
167-172: httpx builds a `http.cookiejar.Cookie` with these four fields
(port `None`, secure `False`, expires `None`) and `set_cookie` replaces
any cookie with the same (name, domain, path) key. -/
def setCookie (st : SessionState) (n v d p : String) : SessionState :=
  { st with
      cookies :=
        st.cookies.filter (fun c => !(c.name == n && c.domain == d && c.path == p)) ++
          [{ name := n, value := v, domain := d, path := p, port := none,
             secure := false, expires := none }] }

/-- JSON values, for the solver's response body and `json.dumps`. -/
inductive Json where
  | null
  | bool (b : Bool)
  | num (n : Int)
  | str (s : String)
  | arr (xs : List Json)
  | obj (kvs : List (String × Json))
deriving Repr

/-- Python `json.dumps` escaping for one character (the claims only ever
serialize control-free ASCII payloads, for which this is exact). -/
def escChar (c : Char) : String :=
  if c = '"' then "\\\""
  else if c = '\\' then "\\\\"
  else if c = '\n' then "\\n"
  else if c = '\t' then "\\t"
  else if c = '\r' then "\\r"
  else String.singleton c

/-- Python `json.dumps` of a string. -/
def dumpStr (s : String) : String :=
  "\"" ++ String.join (s.toList.map escChar) ++ "\""

/-- Python `json.dumps` with its default separators (`, ` and `: `);
Python dicts keep insertion order, as the `obj` list does. -/
def dumps : Json → String
  | .null => "null"
  | .bool b => if b then "true" else "false"
  | .num n => toString n
  | .str s => dumpStr s
  | .arr xs => "[" ++ String.intercalate ", " (xs.attach.map (fun x => dumps x.1)) ++ "]"
  | .obj kvs =>
      "\x7b" ++
        String.intercalate ", "
          (kvs.attach.map (fun kv => dumpStr kv.1.1 ++ ": " ++ dumps kv.1.2)) ++
        "\x7d"
decreasing_by
  · have h := List.sizeOf_lt_of_mem x.2
    simp_wf
    omega
  · have h1 := List.sizeOf_lt_of_mem kv.2
    have h2 : sizeOf kv.1.2 < sizeOf kv.1 := by
      obtain ⟨⟨k, v⟩, hm⟩ := kv
      simp
    simp_wf
    omega

/-- Key lookup in a JSON object: Python's `d[k]` / `k in d` for the dict
bodies the solver contract prescribes (`in` over a non-dict body behaves
differently in Python but is outside that contract). -/
def Json.getKey : Json → String → Option Json
  | .obj kvs, k => (kvs.find? (fun kv => kv.1 == k)).map (fun kv => kv.2)
  | _, _ => none

/-- The body posted to `{solver_url}/get_cookies`, the dict built at
source lines 135-142.  The per-cookie dict of lines 126-134 copies
exactly the seven fields of `Cookie`, so the snapshot list holds `Cookie`
values.  `proxy` is `self._kwargs.get('proxy', None)`. -/
structure SolveRequest where
  maxTimeout : Nat
  url : String
  cookies : List Cookie
  proxy : Option String
deriving Repr, DecidableEq

/-- The dict of source lines 126-134 as JSON (`None` becomes `null`). -/
def cookieJson (c : Cookie) : Json :=
  .obj
    [("name", .str c.name), ("value", .str c.value), ("domain", .str c.domain),
     ("path", .str c.path),
     ("port", match c.port with | some p => .str p | none => .null),
     ("secure", .bool c.secure),
     ("expires", match c.expires with | some e => .num e | none => .null)]

/-- The solve request as the JSON dict of lines 135-142, in insertion
order, as `json.dumps` serializes it. -/
def solveRequestJson (r : SolveRequest) : Json :=
  .obj
    [("maxTimeout", .num r.maxTimeout), ("url", .str r.url),
     ("cookies", .arr (r.cookies.map cookieJson)),
     ("proxy", match r.proxy with | some p => .str p | none => .null)]

/-- Source lines 122-142: the solve request snapshots every cookie of the
current jar and carries the fixed 60000 ms budget, the solve target url
and the configured proxy. -/
def buildSolveRequest (st : SessionState) (url : String) (proxy : Option String) :
    SolveRequest :=
  { maxTimeout := 60000, url := url, cookies := st.cookies, proxy := proxy }

/-- What the solver endpoint answers: an HTTP status and the parsed JSON
body (`solver_response.json()` at line 154; a body that is not JSON would
raise inside httpx, which no claim touches). -/
structure SolverResponse where
  status_code : Nat
  body : Json

/-- One constructor per `raise` site of the source.  All four named
errors are `AsyncClient.Exception` subclasses or instances distinguished
by their message in the Python code; the spec names them
`CloudFlareBlocked` (line 91), `SolverUnavailable` (line 152),
`SolverProtocolError` (line 156) and `ChallengeRetriesExceeded`
(line 116).  `pyError` stands for the Python-level `KeyError`/`TypeError`
a malformed solution dict would raise at lines 163-171; it is outside the
solver contract and no claim reaches it. -/
inductive CErr where
  | cloudFlareBlocked (msg : String)
  | solverUnavailable (msg : String)
  | solverProtocolError (msg : String)
  | challengeRetriesExceeded (msg : String)
  | pyError
deriving Repr, DecidableEq

/-- Extraction of one solver cookie, lines 168-171: `c['name']`,
`c['value']`, `c.get('domain', "")`, `c.get('path', '/')`.  `none` when a
required key is missing or a value is not a string (in Python the former
raises `KeyError`; a non-string value would be accepted into the jar but
is outside the solver contract and no claim depends on it). -/
def parseCookie (c : Json) : Option (String × String × String × String) :=
  match c.getKey "name", c.getKey "value" with
  | some (.str n), some (.str v) =>
      match c.getKey "domain", c.getKey "path" with
      | some (.str d), some (.str p) => some (n, v, d, p)
      | some (.str d), none => some (n, v, d, "/")
      | none, some (.str p) => some (n, v, "", p)
      | none, none => some (n, v, "", "/")
      | _, _ => none
  | _, _ => none

/-- The cookie loop of lines 166-172: each well-formed cookie is set into
the jar in order; a malformed one stops the loop with the error flag (the
Python `KeyError`), keeping the cookies already set - mirroring that the
mutation happens as the loop runs. -/
def applyCookies : SessionState → List Json → SessionState × Bool
  | st, [] => (st, false)
  | st, c :: cs =>
      match parseCookie c with
      | some (n, v, d, p) => applyCookies (setCookie st n v d p) cs
      | none => (st, true)

/-- Outcome of `_solve_challenge` (lines 120-172): the solve request it
posted, the session state after it (the source mutates `self`), and the
error it raised, if any.  The checks run in source order: non-200 status
first (line 151), then the missing `solution` key (line 155), then the
solution is applied - user-agent first (line 163), cookies after
(lines 166-172) - so a failed check leaves the state untouched. -/
structure SolveOut where
  req : SolveRequest
  state : SessionState
  err : Option CErr
deriving Repr

/-- Shallow embedding of `AsyncClient._solve_challenge`. -/
def solveChallenge (st : SessionState) (url : String) (proxy : Option String)
    (resp : SolverResponse) : SolveOut :=
  let req := buildSolveRequest st url proxy
  if resp.status_code ≠ 200 then
    { req := req, state := st,
      err := some (.solverUnavailable
        ("Solver is unavailable: status_code = " ++ toString resp.status_code)) }
  else
    match resp.body.getKey "solution" with
    | none =>
        { req := req, state := st,
          err := some (.solverProtocolError
            ("Can't solve challenge: no solution in response for '" ++ url ++
              "': response: " ++ dumps resp.body ++ " on request: " ++
              dumps (solveRequestJson req))) }
    | some sol =>
        match sol.getKey "userAgent" with
        | some (.str ua) =>
            let st1 := { st with user_agent := ua }
            match sol.getKey "cookies" with
            | some (.arr cs) =>
                match applyCookies st1 cs with
                | (st2, false) => { req := req, state := st2, err := none }
                | (st2, true) => { req := req, state := st2, err := some .pyError }
            | _ => { req := req, state := st1, err := some .pyError }
        | _ => { req := req, state := st, err := some .pyError }

/-- Headers are a Python dict (string keys to string values, unique keys,
insertion-ordered), modelled as an association list. -/
def hdrGet : List (String × String) → String → Option String
  | [], _ => none
  | p :: t, k => if p.1 = k then some p.2 else hdrGet t k

/-- Python dict assignment `d[k] = v`: replaces the entry in place when
the key is present (keys are unique in a dict), appends otherwise. -/
def hdrSet : List (String × String) → String → String → List (String × String)
  | [], k, v => [(k, v)]
  | p :: t, k, v => if p.1 = k then (k, v) :: t else p :: hdrSet t k v

/-- Source lines 68-70: copy the caller's headers, then overwrite
`user-agent` with the session's current user-agent and `cache-control`
with `no-cache`. -/
def sendHeaders (headers : List (String × String)) (ua : String) :
    List (String × String) :=
  hdrSet (hdrSet headers "user-agent" ua) "cache-control" "no-cache"

/-- `self._max_tries = 2` (source line 23). -/
def maxTries : Nat := 2

/-- Source line 111: `url if not solve_url else solve_url` - Python
truthiness, so an absent solve_url AND an empty-string solve_url both
fall back to the request url. -/
def effectiveSolveUrl (url : String) (solve_url : Option String) : String :=
  match solve_url with
  | some s => if s = "" then url else s
  | none => url

/-- Instrumentation of one `_request` call: for every attempt, the session
state at send time together with the headers actually passed to the
transport; for every solver call, the state at call time together with
the posted solve request. -/
structure ReqTrace where
  attempts : List (SessionState × List (String × String))
  solverCalls : List (SessionState × SolveRequest)
deriving Repr

/-- How a `_request` call ends: the returned response, or the exception
it raises. -/
inductive ReqResult where
  | success (r : Response)
  | failure (e : CErr)
deriving Repr, DecidableEq

/-- Result of a `_request` call: outcome, final session state (the
source mutates `self` in place), and the trace. -/
structure ReqOut where
  result : ReqResult
  state : SessionState
  trace : ReqTrace
deriving Repr

/-- The `for try_i in range(self._max_tries)` loop of lines 66-118.
`transport` maps the attempt index to the response the wrapped
`run_method` produces (the transport is an external collaborator);
`solver` maps the solver-call index to the solver's response.  Each
iteration sends with `sendHeaders`, classifies, and either returns the
response (ok / unrelated 403), raises `CloudFlareBlocked` (hard block),
or solves and continues; falling out of the loop raises the
max-tries-exceeded `AsyncClient.Exception` of lines 116-118. -/
def requestLoop (transport : Nat → Response) (solver : Nat → SolverResponse)
    (url : String) (solve_url : Option String)
    (headers : List (String × String)) (proxy : Option String) :
    Nat → Nat → Nat → SessionState → ReqOut
  | 0, _, _, st =>
      { result := .failure (.challengeRetriesExceeded
          ("Can't solve challenge: challenge got " ++ toString maxTries ++
            " times ... (max tries exceded)")),
        state := st, trace := { attempts := [], solverCalls := [] } }
  | fuel + 1, tryIdx, solveIdx, st =>
      let sendHdrs := sendHeaders headers st.user_agent
      let response := transport tryIdx
      match classify response with
      | .hardBlock =>
          { result := .failure (.cloudFlareBlocked "IP blocked by cloud flare"),
            state := st,
            trace := { attempts := [(st, sendHdrs)], solverCalls := [] } }
      | .challenge =>
          let so := solveChallenge st (effectiveSolveUrl url solve_url) proxy
            (solver solveIdx)
          match so.err with
          | some e =>
              { result := .failure e, state := so.state,
                trace := { attempts := [(st, sendHdrs)],
                           solverCalls := [(st, so.req)] } }
          | none =>
              let rest := requestLoop transport solver url solve_url headers proxy
                fuel (tryIdx + 1) (solveIdx + 1) so.state
              { result := rest.result, state := rest.state,
                trace := { attempts := (st, sendHdrs) :: rest.trace.attempts,
                           solverCalls := (st, so.req) :: rest.trace.solverCalls } }
      | _ =>
          { result := .success response, state := st,
            trace := { attempts := [(st, sendHdrs)], solverCalls := [] } }

/-- Shallow embedding of `AsyncClient._request` (lines 63-118): run the
attempt loop `_max_tries` times from the given session state. -/
def request (transport : Nat → Response) (solver : Nat → SolverResponse)
    (url : String) (solve_url : Option String)
    (headers : List (String × String)) (proxy : Option String)
    (st : SessionState) : ReqOut :=
  requestLoop transport solver url solve_url headers proxy maxTries 0 0 st

/-- A solver response that follows the documented contract: status 200
and a `solution` object with a string `userAgent` and a list of
well-formed cookies.  Exactly these responses make `_solve_challenge`
return without raising. -/
def wellFormedSolverResponse (r : SolverResponse) : Bool :=
  r.status_code == 200 &&
    (match r.body.getKey "solution" with
     | some sol =>
         (match sol.getKey "userAgent" with
          | some (.str _) => true
          | _ => false) &&
           (match sol.getKey "cookies" with
            | some (.arr cs) => cs.all (fun c => (parseCookie c).isSome)
            | _ => false)
     | none => false)

theorem applyCookies_no_err (cs : List Json) :
    ∀ st : SessionState, (∀ c ∈ cs, (parseCookie c).isSome) →
      (applyCookies st cs).2 = false := by
  induction cs with
  | nil => intro st _; rfl
  | cons c cs ih =>
    intro st h
    have hc := h c (by simp)
    match hp : parseCookie c with
    | some (n, v, d, p) =>
      simp only [applyCookies, hp]
      exact ih _ (fun c' hc' => h c' (by simp [hc']))
    | none => rw [hp] at hc; simp at hc

theorem applyCookies_user_agent (cs : List Json) :
    ∀ st : SessionState, (applyCookies st cs).1.user_agent = st.user_agent := by
  induction cs with
  | nil => intro st; rfl
  | cons c cs ih =>
    intro st
    simp only [applyCookies]
    match hp : parseCookie c with
    | some (n, v, d, p) => simp only [ih]; rfl
    | none => rfl

theorem solveChallenge_req (st : SessionState) (url : String)
    (proxy : Option String) (resp : SolverResponse) :
    (solveChallenge st url proxy resp).req = buildSolveRequest st url proxy := by
  simp only [solveChallenge]
  split
  · rfl
  · split
    · rfl
    · split
      · split
        · split <;> rfl
        · rfl
      · rfl

theorem solveChallenge_err_none (st : SessionState) (url : String)
    (proxy : Option String) (resp : SolverResponse)
    (h : wellFormedSolverResponse resp = true) :
    (solveChallenge st url proxy resp).err = none := by
  simp only [wellFormedSolverResponse, Bool.and_eq_true, beq_iff_eq] at h
  obtain ⟨hs, hrest⟩ := h
  rcases hsol : resp.body.getKey "solution" with _ | sol
  · rw [hsol] at hrest; simp at hrest
  · rw [hsol] at hrest
    simp only [Bool.and_eq_true] at hrest
    obtain ⟨hua, hcs⟩ := hrest
    rcases hu : sol.getKey "userAgent" with _ | ua'
    · rw [hu] at hua; simp at hua
    · rcases ua' with _ | b | n | ua | xs | kvs <;> rw [hu] at hua <;>
        try simp at hua
      rcases hc : sol.getKey "cookies" with _ | cj
      · rw [hc] at hcs; simp at hcs
      · rcases cj with _ | b | n | s | cs | kvs <;> rw [hc] at hcs <;>
          try simp at hcs
        have hno := applyCookies_no_err cs { st with user_agent := ua }
          (fun c hmem => by simpa using hcs c hmem)
        simp only [solveChallenge, hs, hsol, hu, hc, ne_eq, not_true_eq_false,
          if_false]
        rcases hac : applyCookies { st with user_agent := ua } cs with ⟨st2, e⟩
        rw [hac] at hno
        simp only at hno
        subst hno
        rfl

theorem hdrGet_hdrSet (l : List (String × String)) (k v k' : String) :
    hdrGet (hdrSet l k v) k' = if k' = k then some v else hdrGet l k' := by
  induction l with
  | nil =>
    by_cases h : k' = k
    · subst h; simp [hdrSet, hdrGet]
    · have hkk' : ¬k = k' := fun he => h he.symm
      simp [hdrSet, hdrGet, h, hkk']
  | cons p t ih =>
    by_cases hp : p.1 = k
    · by_cases h : k' = k
      · subst h; simp [hdrSet, hdrGet, hp]
      · have hkk' : ¬k = k' := fun he => h he.symm
        have hpk' : ¬p.1 = k' := fun he => h ((hp.symm.trans he).symm)
        simp [hdrSet, hdrGet, hp, h, hkk', hpk']
    · by_cases h : k' = k
      · subst h; simp [hdrSet, hdrGet, hp, ih]
      · simp [hdrSet, hdrGet, hp, h, ih]

/-- True when the jar holds a cookie with this (name, domain, path) key. -/
def hasCookie (st : SessionState) (n d p : String) : Bool :=
  st.cookies.any (fun c => c.name == n && c.domain == d && c.path == p)

theorem hasCookie_setCookie_self (st : SessionState) (n v d p : String) :
    hasCookie (setCookie st n v d p) n d p = true := by
  simp [hasCookie, setCookie]

theorem hasCookie_setCookie_mono (st : SessionState) (n d p n' v' d' p' : String)
    (h : hasCookie st n d p = true) :
    hasCookie (setCookie st n' v' d' p') n d p = true := by
  by_cases heq : n = n' ∧ d = d' ∧ p = p'
  · obtain ⟨h1, h2, h3⟩ := heq
    subst h1; subst h2; subst h3
    exact hasCookie_setCookie_self st n v' d p
  · simp only [hasCookie, List.any_eq_true] at h
    obtain ⟨c, hc, hcp⟩ := h
    simp only [Bool.and_eq_true, beq_iff_eq] at hcp
    obtain ⟨⟨e1, e2⟩, e3⟩ := hcp
    simp only [hasCookie, setCookie, List.any_append, List.any_eq_true,
      Bool.or_eq_true]
    left
    refine ⟨c, List.mem_filter.mpr ⟨hc, ?_⟩, by simp [e1, e2, e3]⟩
    simp only [e1, e2, e3, Bool.not_eq_true', Bool.and_eq_false_iff,
      beq_eq_false_iff_ne, ne_eq]
    tauto

theorem mem_setCookie_of_key_ne (st : SessionState) (c : Cookie)
    (n v d p : String) (hc : c ∈ st.cookies)
    (hne : ¬(c.name = n ∧ c.domain = d ∧ c.path = p)) :
    c ∈ (setCookie st n v d p).cookies := by
  simp only [setCookie, List.mem_append]
  left
  refine List.mem_filter.mpr ⟨hc, ?_⟩
  simp only [Bool.not_eq_true', Bool.and_eq_false_iff,
    beq_eq_false_iff_ne, ne_eq]
  tauto

theorem applyCookies_hasCookie_mono (cs : List Json) :
    ∀ st : SessionState, ∀ n d p : String, hasCookie st n d p = true →
      hasCookie (applyCookies st cs).1 n d p = true := by
  induction cs with
  | nil => intro st n d p h; exact h
  | cons c cs ih =>
    intro st n d p h
    simp only [applyCookies]
    match hp : parseCookie c with
    | some (n', v', d', p') =>
      exact ih _ n d p (hasCookie_setCookie_mono st n d p n' v' d' p' h)
    | none => exact h

theorem applyCookies_hasCookie (cs : List Json) :
    ∀ st : SessionState, (∀ c ∈ cs, (parseCookie c).isSome) →
      ∀ c ∈ cs, ∀ n v d p : String,
      parseCookie c = some (n, v, d, p) →
      hasCookie (applyCookies st cs).1 n d p = true := by
  induction cs with
  | nil => intro st _ c hc; simp at hc
  | cons c0 cs ih =>
    intro st hwf c hc n v d p hparse
    rcases List.mem_cons.mp hc with he | ht
    · subst he
      simp only [applyCookies, hparse]
      exact applyCookies_hasCookie_mono cs _ n d p
        (hasCookie_setCookie_self st n v d p)
    · simp only [applyCookies]
      match hp : parseCookie c0 with
      | some (n0, v0, d0, p0) =>
        exact ih _ (fun c' hc' => hwf c' (by simp [hc'])) c ht n v d p hparse
      | none =>
        have := hwf c0 (by simp)
        rw [hp] at this
        simp at this

theorem mem_applyCookies_of_keys_ne (cs : List Json) :
    ∀ st : SessionState, ∀ k ∈ st.cookies,
      (∀ c ∈ cs, ∀ n v d p : String, parseCookie c = some (n, v, d, p) →
        ¬(k.name = n ∧ k.domain = d ∧ k.path = p)) →
      k ∈ (applyCookies st cs).1.cookies := by
  induction cs with
  | nil => intro st k hk _; exact hk
  | cons c0 cs ih =>
    intro st k hk hne
    simp only [applyCookies]
    match hp : parseCookie c0 with
    | some (n0, v0, d0, p0) =>
      refine ih _ k ?_ (fun c' hc' => hne c' (by simp [hc']))
      exact mem_setCookie_of_key_ne st k n0 v0 d0 p0 hk
        (hne c0 (by simp) n0 v0 d0 p0 hp)
    | none => exact hk

theorem requestLoop_solverCalls_spec (transport : Nat → Response)
    (solver : Nat → SolverResponse) (url : String) (solve_url : Option String)
    (headers : List (String × String)) (proxy : Option String) :
    ∀ fuel tryIdx solveIdx st,
      ∀ pr ∈ (requestLoop transport solver url solve_url headers proxy
          fuel tryIdx solveIdx st).trace.solverCalls,
        pr.2 = buildSolveRequest pr.1 (effectiveSolveUrl url solve_url) proxy := by
  intro fuel
  induction fuel with
  | zero => intro tryIdx solveIdx st pr hpr; simp [requestLoop] at hpr
  | succ fuel ih =>
    intro tryIdx solveIdx st pr hpr
    simp only [requestLoop] at hpr
    rcases hcl : classify (transport tryIdx) with _ | _ | _ | _ <;>
      rw [hcl] at hpr
    · simp at hpr
    · simp at hpr
    · rcases herr : (solveChallenge st (effectiveSolveUrl url solve_url) proxy
        (solver solveIdx)).err with _ | e <;> rw [herr] at hpr
      · simp only [List.mem_cons] at hpr
        rcases hpr with he | ht
        · subst he
          exact solveChallenge_req st (effectiveSolveUrl url solve_url) proxy
            (solver solveIdx)
        · exact ih (tryIdx + 1) (solveIdx + 1) _ pr ht
      · simp only [List.mem_singleton] at hpr
        subst hpr
        exact solveChallenge_req st (effectiveSolveUrl url solve_url) proxy
          (solver solveIdx)
    · simp at hpr

theorem requestLoop_attempts_spec (transport : Nat → Response)
    (solver : Nat → SolverResponse) (url : String) (solve_url : Option String)
    (headers : List (String × String)) (proxy : Option String) :
    ∀ fuel tryIdx solveIdx st,
      ∀ pr ∈ (requestLoop transport solver url solve_url headers proxy
          fuel tryIdx solveIdx st).trace.attempts,
        pr.2 = sendHeaders headers pr.1.user_agent := by
  intro fuel
  induction fuel with
  | zero => intro tryIdx solveIdx st pr hpr; simp [requestLoop] at hpr
  | succ fuel ih =>
    intro tryIdx solveIdx st pr hpr
    simp only [requestLoop] at hpr
    rcases hcl : classify (transport tryIdx) with _ | _ | _ | _ <;>
      rw [hcl] at hpr
    · simp only [List.mem_singleton] at hpr; subst hpr; rfl
    · simp only [List.mem_singleton] at hpr; subst hpr; rfl
    · rcases herr : (solveChallenge st (effectiveSolveUrl url solve_url) proxy
        (solver solveIdx)).err with _ | e <;> rw [herr] at hpr
      · simp only [List.mem_cons] at hpr
        rcases hpr with he | ht
        · subst he; rfl
        · exact ih (tryIdx + 1) (solveIdx + 1) _ pr ht
      · simp only [List.mem_singleton] at hpr; subst hpr; rfl
    · simp only [List.mem_singleton] at hpr; subst hpr; rfl

theorem requestLoop_all_challenge (transport : Nat → Response)
    (solver : Nat → SolverResponse) (url : String) (solve_url : Option String)
    (headers : List (String × String)) (proxy : Option String) :
    ∀ fuel tryIdx solveIdx st,
      (∀ i < fuel, classify (transport (tryIdx + i)) = .challenge) →
      (∀ j < fuel, wellFormedSolverResponse (solver (solveIdx + j)) = true) →
      (requestLoop transport solver url solve_url headers proxy
          fuel tryIdx solveIdx st).result =
        .failure (.challengeRetriesExceeded
          ("Can't solve challenge: challenge got " ++ toString maxTries ++
            " times ... (max tries exceded)")) ∧
      (requestLoop transport solver url solve_url headers proxy
          fuel tryIdx solveIdx st).trace.solverCalls.length = fuel ∧
      (requestLoop transport solver url solve_url headers proxy
          fuel tryIdx solveIdx st).trace.attempts.length = fuel := by
  intro fuel
  induction fuel with
  | zero => intro tryIdx solveIdx st _ _; exact ⟨rfl, rfl, rfl⟩
  | succ fuel ih =>
    intro tryIdx solveIdx st hch hok
    have h0 : classify (transport tryIdx) = .challenge := by
      have := hch 0 (by omega); simpa using this
    have herr : (solveChallenge st (effectiveSolveUrl url solve_url) proxy
        (solver solveIdx)).err = none := by
      have := hok 0 (by omega)
      exact solveChallenge_err_none _ _ _ _ (by simpa using this)
    have hch' : ∀ i < fuel, classify (transport (tryIdx + 1 + i)) = .challenge := by
      intro i hi
      have := hch (i + 1) (by omega)
      have harr : tryIdx + (i + 1) = tryIdx + 1 + i := by omega
      rwa [harr] at this
    have hok' : ∀ j < fuel,
        wellFormedSolverResponse (solver (solveIdx + 1 + j)) = true := by
      intro j hj
      have := hok (j + 1) (by omega)
      have harr : solveIdx + (j + 1) = solveIdx + 1 + j := by omega
      rwa [harr] at this
    have hrec := ih (tryIdx + 1) (solveIdx + 1) (solveChallenge st
      (effectiveSolveUrl url solve_url) proxy (solver solveIdx)).state hch' hok'
    simp only [requestLoop, h0, herr]
    exact ⟨hrec.1, by simp [hrec.2.1], by simp [hrec.2.2]⟩

theorem requestLoop_prefix_success (transport : Nat → Response)
    (solver : Nat → SolverResponse) (url : String) (solve_url : Option String)
    (headers : List (String × String)) (proxy : Option String) :
    ∀ k fuel tryIdx solveIdx st, k < fuel →
      (∀ i < k, classify (transport (tryIdx + i)) = .challenge) →
      (∀ j < k, wellFormedSolverResponse (solver (solveIdx + j)) = true) →
      (classify (transport (tryIdx + k)) = .ok ∨
        classify (transport (tryIdx + k)) = .unrelated) →
      (requestLoop transport solver url solve_url headers proxy
          fuel tryIdx solveIdx st).result = .success (transport (tryIdx + k)) := by
  intro k
  induction k with
  | zero =>
    intro fuel tryIdx solveIdx st hk _ _ hcl
    match fuel, hk with
    | fuel + 1, _ =>
      simp only [Nat.add_zero] at hcl
      rcases hcl with hcl | hcl <;> simp [requestLoop, hcl]
  | succ k ih =>
    intro fuel tryIdx solveIdx st hk hch hok hcl
    match fuel, hk with
    | fuel + 1, hk =>
      have h0 : classify (transport tryIdx) = .challenge := by
        have := hch 0 (by omega); simpa using this
      have herr : (solveChallenge st (effectiveSolveUrl url solve_url) proxy
          (solver solveIdx)).err = none := by
        have := hok 0 (by omega)
        exact solveChallenge_err_none _ _ _ _ (by simpa using this)
      have hch' : ∀ i < k, classify (transport (tryIdx + 1 + i)) = .challenge := by
        intro i hi
        have := hch (i + 1) (by omega)
        have harr : tryIdx + (i + 1) = tryIdx + 1 + i := by omega
        rwa [harr] at this
      have hok' : ∀ j < k,
          wellFormedSolverResponse (solver (solveIdx + 1 + j)) = true := by
        intro j hj
        have := hok (j + 1) (by omega)
        have harr : solveIdx + (j + 1) = solveIdx + 1 + j := by omega
        rwa [harr] at this
      have hcl' : classify (transport (tryIdx + 1 + k)) = .ok ∨
          classify (transport (tryIdx + 1 + k)) = .unrelated := by
        have harr : tryIdx + (k + 1) = tryIdx + 1 + k := by omega
        rwa [harr] at hcl
      have hrec := ih fuel (tryIdx + 1) (solveIdx + 1) (solveChallenge st
        (effectiveSolveUrl url solve_url) proxy (solver solveIdx)).state
        (by omega) hch' hok' hcl'
      simp only [requestLoop, h0, herr]
      have harr : tryIdx + (k + 1) = tryIdx + 1 + k := by omega
      rw [harr]
      exact hrec

theorem requestLoop_succ_hardBlock (transport : Nat → Response)
    (solver : Nat → SolverResponse) (url : String) (solve_url : Option String)
    (headers : List (String × String)) (proxy : Option String)
    (fuel tryIdx solveIdx : Nat) (st : SessionState)
    (h : classify (transport tryIdx) = .hardBlock) :
    requestLoop transport solver url solve_url headers proxy
        (fuel + 1) tryIdx solveIdx st =
      { result := .failure (.cloudFlareBlocked "IP blocked by cloud flare"),
        state := st,
        trace := { attempts := [(st, sendHeaders headers st.user_agent)],
                   solverCalls := [] } } := by
  simp [requestLoop, h]

theorem requestLoop_succ_challenge_err (transport : Nat → Response)
    (solver : Nat → SolverResponse) (url : String) (solve_url : Option String)
    (headers : List (String × String)) (proxy : Option String)
    (fuel tryIdx solveIdx : Nat) (st : SessionState) (e : CErr)
    (h : classify (transport tryIdx) = .challenge)
    (herr : (solveChallenge st (effectiveSolveUrl url solve_url) proxy
      (solver solveIdx)).err = some e) :
    requestLoop transport solver url solve_url headers proxy
        (fuel + 1) tryIdx solveIdx st =
      { result := .failure e,
        state := (solveChallenge st (effectiveSolveUrl url solve_url) proxy
          (solver solveIdx)).state,
        trace := { attempts := [(st, sendHeaders headers st.user_agent)],
                   solverCalls := [(st, (solveChallenge st
                     (effectiveSolveUrl url solve_url) proxy
                     (solver solveIdx)).req)] } } := by
  simp [requestLoop, h, herr]

theorem requestLoop_succ_challenge_ok (transport : Nat → Response)
    (solver : Nat → SolverResponse) (url : String) (solve_url : Option String)
    (headers : List (String × String)) (proxy : Option String)
    (fuel tryIdx solveIdx : Nat) (st : SessionState)
    (h : classify (transport tryIdx) = .challenge)
    (herr : (solveChallenge st (effectiveSolveUrl url solve_url) proxy
      (solver solveIdx)).err = none) :
    requestLoop transport solver url solve_url headers proxy
        (fuel + 1) tryIdx solveIdx st =
      (let so := solveChallenge st (effectiveSolveUrl url solve_url) proxy
        (solver solveIdx)
      let rest := requestLoop transport solver url solve_url headers proxy
        fuel (tryIdx + 1) (solveIdx + 1) so.state
      { result := rest.result, state := rest.state,
        trace := { attempts := (st, sendHeaders headers st.user_agent) ::
                     rest.trace.attempts,
                   solverCalls := (st, so.req) :: rest.trace.solverCalls } }) := by
  simp [requestLoop, h, herr]

/-- Concrete challenge page: 403, HTML, "Just a moment..." marker and
title. -/
def challengeResponse : Response :=
  { status_code := 403, content_type := "text/html",
    text := "<html><title>Just a moment...</title>just a moment...</html>" }

/-- Concrete ordinary success response. -/
def okResponse : Response :=
  { status_code := 200, content_type := "text/html", text := "hello" }

/-- Concrete hard-block page: "access denied" with the Cloudflare title. -/
def hardBlockResponse : Response :=
  { status_code := 403, content_type := "text/html",
    text := "<html>access denied<title>access denied by cloudflare</title></html>" }

/-- Concrete 403 HTML page matching no protection pattern. -/
def unrelatedResponse : Response :=
  { status_code := 403, content_type := "text/html",
    text := "forbidden for other reasons" }

/-- Concrete clearance cookie as the solver serializes it. -/
def cfCookieJson : Json :=
  .obj [("name", .str "cf_clearance"), ("value", .str "v1"),
    ("domain", .str "example.com"), ("path", .str "/")]

/-- Concrete contract-conforming solver response. -/
def contractSolverResponse : SolverResponse :=
  { status_code := 200,
    body := .obj [("solution", .obj
      [("userAgent", .str "UA2"), ("cookies", .arr [cfCookieJson])])] }

/-- Concrete solver failure response (HTTP 500). -/
def errorSolverResponse : SolverResponse :=
  { status_code := 500, body := .null }

/-- Concrete solver 200 response whose JSON body has no `solution` key. -/
def emptySolverResponse : SolverResponse :=
  { status_code := 200, body := .obj [] }

/-- Transport that serves the challenge page on the first attempt and an
ordinary 200 afterwards. -/
def challengeThenOkTransport : Nat → Response :=
  fun i => if i = 0 then challengeResponse else okResponse

/-- An application cookie unrelated to the protection layer. -/
def keepCookie : Cookie :=
  { name := "keep", value := "w", domain := "other.example", path := "/",
    port := none, secure := false, expires := none }

/-- Session state already holding an unrelated cookie. -/
def preexistingState : SessionState :=
  { user_agent := defaultUserAgent, cookies := [keepCookie] }

/-- C1: when every attempt (up to the fixed maximum of 2) classifies as a
challenge and the solver answers well-formed solutions, the call makes
exactly one solver call per attempt and then raises the
max-tries-exceeded error, whose message names the configured maximum
(`toString maxTries` appears in the message by construction). -/
theorem claim_C1 (transport : Nat → Response) (solver : Nat → SolverResponse)
    (url : String) (solve_url : Option String)
    (headers : List (String × String)) (proxy : Option String)
    (st : SessionState)
    (hch : ∀ i < maxTries, classify (transport i) = .challenge)
    (hok : ∀ j < maxTries, wellFormedSolverResponse (solver j) = true) :
    (request transport solver url solve_url headers proxy st).result =
      .failure (.challengeRetriesExceeded
        ("Can't solve challenge: challenge got " ++ toString maxTries ++
          " times ... (max tries exceded)")) ∧
    (request transport solver url solve_url headers proxy
      st).trace.solverCalls.length = maxTries ∧
    (request transport solver url solve_url headers proxy
      st).trace.attempts.length = maxTries := by
  exact requestLoop_all_challenge transport solver url solve_url headers proxy
    maxTries 0 0 st (by simpa using hch) (by simpa using hok)

theorem claim_C1_witness :
    (request (fun _ => challengeResponse) (fun _ => contractSolverResponse)
      "https://x.example/" none [] none initSessionState).result =
      .failure (.challengeRetriesExceeded
        ("Can't solve challenge: challenge got " ++ toString maxTries ++
          " times ... (max tries exceded)")) ∧
    (request (fun _ => challengeResponse) (fun _ => contractSolverResponse)
      "https://x.example/" none [] none initSessionState).trace.solverCalls.length =
      maxTries ∧
    (request (fun _ => challengeResponse) (fun _ => contractSolverResponse)
      "https://x.example/" none [] none initSessionState).trace.attempts.length =
      maxTries :=
  claim_C1 (fun _ => challengeResponse) (fun _ => contractSolverResponse)
    "https://x.example/" none [] none initSessionState
    (fun _ _ => (by decide : classify challengeResponse = .challenge))
    (fun _ _ => (by decide : wellFormedSolverResponse contractSolverResponse = true))

/-- C2: a 403 HTML non-empty response whose lowered body matches one of
the two hard-block marker/title patterns makes the call raise
`CloudFlareBlocked` on that attempt, with no solver call and no retry. -/
theorem claim_C2 (transport : Nat → Response) (solver : Nat → SolverResponse)
    (url : String) (solve_url : Option String)
    (headers : List (String × String)) (proxy : Option String)
    (st : SessionState)
    (hs : (transport 0).status_code = 403)
    (hct : startsWithStr (transport 0).content_type "text/html" = true)
    (hne : (transport 0).text ≠ "")
    (hhb : (containsSub "access denied".toList (lowerText (transport 0).text) = true ∧
        reSearch accessDeniedTitleRe (lowerText (transport 0).text) = true) ∨
      (containsSub "ip banned".toList (lowerText (transport 0).text) = true ∧
        containsSub "cloudflare".toList (lowerText (transport 0).text) = true ∧
        reSearch ipBannedTitleRe (lowerText (transport 0).text) = true)) :
    (request transport solver url solve_url headers proxy st).result =
      .failure (.cloudFlareBlocked "IP blocked by cloud flare") ∧
    (request transport solver url solve_url headers proxy
      st).trace.solverCalls = [] ∧
    (request transport solver url solve_url headers proxy
      st).trace.attempts.length = 1 := by
  have hcl : classify (transport 0) = .hardBlock := by
    have hguard : ((transport 0).status_code == 403 &&
        startsWithStr (transport 0).content_type "text/html" &&
        !((transport 0).text == "")) = true := by
      simp [hs, hct, hne]
    have hhb' : isHardBlock (lowerText (transport 0).text) = true := by
      simp only [isHardBlock, Bool.or_eq_true, Bool.and_eq_true]
      rcases hhb with ⟨a, b⟩ | ⟨a, b, c⟩
      · left; exact ⟨a, b⟩
      · right; exact ⟨⟨a, b⟩, c⟩
    simp [classify, hguard, hhb']
  have hstep := requestLoop_succ_hardBlock transport solver url solve_url
    headers proxy 1 0 0 st hcl
  rw [show request transport solver url solve_url headers proxy st =
    requestLoop transport solver url solve_url headers proxy (1 + 1) 0 0 st
    from rfl, hstep]
  exact ⟨rfl, rfl, rfl⟩

theorem claim_C2_witness :
    (request (fun _ => hardBlockResponse) (fun _ => contractSolverResponse)
      "https://x.example/" none [] none initSessionState).result =
      .failure (.cloudFlareBlocked "IP blocked by cloud flare") ∧
    (request (fun _ => hardBlockResponse) (fun _ => contractSolverResponse)
      "https://x.example/" none [] none initSessionState).trace.solverCalls = [] ∧
    (request (fun _ => hardBlockResponse) (fun _ => contractSolverResponse)
      "https://x.example/" none [] none initSessionState).trace.attempts.length = 1 :=
  claim_C2 (fun _ => hardBlockResponse) (fun _ => contractSolverResponse)
    "https://x.example/" none [] none initSessionState
    (by decide) (by decide) (by decide) (Or.inl ⟨by decide, by decide⟩)

/-- C3: a 403 HTML non-empty response that is not a hard block classifies
as CHALLENGE (and the solver is invoked) iff its lowered body contains
one of the four marker phrases and a `<title>` element tolerantly
matching that phrase - the four pairs checked independently as
independent disjuncts. -/
theorem claim_C3 :
    (∀ r : Response, classify r = .challenge ↔
      (r.status_code = 403 ∧ startsWithStr r.content_type "text/html" = true ∧
        r.text ≠ "" ∧ isHardBlock (lowerText r.text) = false ∧
        ((containsSub "just a moment...".toList (lowerText r.text) = true ∧
            reSearch justAMomentTitleRe (lowerText r.text) = true) ∨
          (containsSub "attention required!".toList (lowerText r.text) = true ∧
            reSearch attentionRequiredTitleRe (lowerText r.text) = true) ∨
          (containsSub "captcha challenge".toList (lowerText r.text) = true ∧
            reSearch captchaChallengeTitleRe (lowerText r.text) = true) ∨
          (containsSub "ddos-guard".toList (lowerText r.text) = true ∧
            reSearch ddosGuardTitleRe (lowerText r.text) = true)))) ∧
    (∀ (transport : Nat → Response) (solver : Nat → SolverResponse)
        (url : String) (solve_url : Option String)
        (headers : List (String × String)) (proxy : Option String)
        (st : SessionState),
      classify (transport 0) = .challenge →
      (request transport solver url solve_url headers proxy
        st).trace.solverCalls ≠ []) := by
  constructor
  · intro r
    have hg_iff : ((r.status_code == 403 &&
        startsWithStr r.content_type "text/html" && !(r.text == "")) = true) ↔
        (r.status_code = 403 ∧ startsWithStr r.content_type "text/html" = true ∧
          r.text ≠ "") := by
      simp [Bool.and_eq_true, and_assoc]
    have hch_iff : isChallenge (lowerText r.text) = true ↔
        ((containsSub "just a moment...".toList (lowerText r.text) = true ∧
            reSearch justAMomentTitleRe (lowerText r.text) = true) ∨
          (containsSub "attention required!".toList (lowerText r.text) = true ∧
            reSearch attentionRequiredTitleRe (lowerText r.text) = true) ∨
          (containsSub "captcha challenge".toList (lowerText r.text) = true ∧
            reSearch captchaChallengeTitleRe (lowerText r.text) = true) ∨
          (containsSub "ddos-guard".toList (lowerText r.text) = true ∧
            reSearch ddosGuardTitleRe (lowerText r.text) = true)) := by
      simp [isChallenge, Bool.or_eq_true, Bool.and_eq_true, or_assoc]
    constructor
    · intro h
      by_cases hg : ((r.status_code == 403 &&
          startsWithStr r.content_type "text/html" && !(r.text == "")) = true)
      · by_cases hhb : isHardBlock (lowerText r.text) = true
        · rw [classify, if_pos hg, if_pos hhb] at h
          exact absurd h (by simp)
        · by_cases hch : isChallenge (lowerText r.text) = true
          · obtain ⟨h1, h2, h3⟩ := hg_iff.mp hg
            exact ⟨h1, h2, h3, by simpa using hhb, hch_iff.mp hch⟩
          · rw [classify, if_pos hg, if_neg hhb, if_neg hch] at h
            exact absurd h (by simp)
      · rw [classify, if_neg hg] at h
        exact absurd h (by simp)
    · rintro ⟨h1, h2, h3, h4, h5⟩
      have hg := hg_iff.mpr ⟨h1, h2, h3⟩
      rw [classify, if_pos hg, if_neg (by simp [h4]), if_pos (hch_iff.mpr h5)]
  · intro transport solver url solve_url headers proxy st h
    rw [show request transport solver url solve_url headers proxy st =
      requestLoop transport solver url solve_url headers proxy (1 + 1) 0 0 st
      from rfl]
    rcases herr : (solveChallenge st (effectiveSolveUrl url solve_url) proxy
        (solver 0)).err with _ | e
    · rw [requestLoop_succ_challenge_ok transport solver url solve_url headers
        proxy 1 0 0 st h herr]
      simp
    · rw [requestLoop_succ_challenge_err transport solver url solve_url headers
        proxy 1 0 0 st e h herr]
      simp

theorem claim_C3_witness :
    classify challengeResponse = .challenge ∧
    (request (fun _ => challengeResponse) (fun _ => contractSolverResponse)
      "https://x.example/" none [] none initSessionState).trace.solverCalls ≠ [] :=
  ⟨((claim_C3.1 challengeResponse).mpr
      ⟨by decide, by decide, by decide, by decide,
        Or.inl ⟨by decide, by decide⟩⟩),
    claim_C3.2 (fun _ => challengeResponse) (fun _ => contractSolverResponse)
      "https://x.example/" none [] none initSessionState
      (by decide)⟩

/-- C4: a successful solve replaces the stored user-agent with the
solver's `userAgent` and upserts every solver cookie into the jar keyed
by (name, domain defaulted to "", path defaulted to "/"); cookies of the
jar with other keys are kept. -/
theorem claim_C4 (st : SessionState) (url : String) (proxy : Option String)
    (resp : SolverResponse) (sol : Json) (ua : String) (cs : List Json)
    (hs : resp.status_code = 200)
    (hsol : resp.body.getKey "solution" = some sol)
    (hua : sol.getKey "userAgent" = some (.str ua))
    (hcs : sol.getKey "cookies" = some (.arr cs))
    (hwf : ∀ c ∈ cs, (parseCookie c).isSome) :
    (solveChallenge st url proxy resp).state.user_agent = ua ∧
    (∀ c ∈ cs, ∀ n v d p : String, parseCookie c = some (n, v, d, p) →
      hasCookie (solveChallenge st url proxy resp).state n d p = true) ∧
    (∀ k ∈ st.cookies,
      (∀ c ∈ cs, ∀ n v d p : String, parseCookie c = some (n, v, d, p) →
        ¬(k.name = n ∧ k.domain = d ∧ k.path = p)) →
      k ∈ (solveChallenge st url proxy resp).state.cookies) := by
  have hstate : (solveChallenge st url proxy resp).state =
      (applyCookies { st with user_agent := ua } cs).1 := by
    simp only [solveChallenge, hs, hsol, hua, hcs, ne_eq, not_true_eq_false,
      if_false]
    rcases hac : applyCookies { st with user_agent := ua } cs with ⟨st2, e⟩
    have hno := applyCookies_no_err cs { st with user_agent := ua } hwf
    rw [hac] at hno
    simp only at hno
    subst hno
    rfl
  rw [hstate]
  refine ⟨?_, ?_, ?_⟩
  · rw [applyCookies_user_agent]
  · intro c hc n v d p hp
    exact applyCookies_hasCookie cs _ hwf c hc n v d p hp
  · intro k hk hne
    exact mem_applyCookies_of_keys_ne cs _ k hk hne

theorem claim_C4_witness :
    (solveChallenge preexistingState "https://x.example/" none
      contractSolverResponse).state.user_agent = "UA2" ∧
    hasCookie (solveChallenge preexistingState "https://x.example/" none
      contractSolverResponse).state "cf_clearance" "example.com" "/" = true ∧
    keepCookie ∈ (solveChallenge preexistingState "https://x.example/" none
      contractSolverResponse).state.cookies := by
  have h := claim_C4 preexistingState "https://x.example/" none
    contractSolverResponse
    (.obj [("userAgent", .str "UA2"), ("cookies", .arr [cfCookieJson])])
    "UA2" [cfCookieJson]
    (by decide) rfl rfl rfl (by decide)
  refine ⟨h.1, ?_, ?_⟩
  · exact h.2.1 cfCookieJson (by simp) "cf_clearance" "v1" "example.com" "/"
      (by decide)
  · refine h.2.2 keepCookie (by simp [preexistingState]) ?_
    intro c hc n v d p hp
    simp only [List.mem_singleton] at hc
    subst hc
    have hq := Option.some.inj
      ((by rw [← hp]; rfl :
        some ("cf_clearance", "v1", "example.com", "/") = some (n, v, d, p)))
    simp only [Prod.mk.injEq] at hq
    obtain ⟨hn, hv, hd, hpp⟩ := hq
    intro hcon
    rw [← hn] at hcon
    exact absurd hcon.1 (by decide)

/-- C5: a response that is not a 403, or not HTML, or has an empty body,
classifies OK; and a response classifying OK or UNRELATED-403 ends the
call successfully with that response, at whichever attempt it arrives. -/
theorem claim_C5 :
    (∀ r : Response,
      (r.status_code ≠ 403 ∨ startsWithStr r.content_type "text/html" = false ∨
        r.text = "") → classify r = .ok) ∧
    (∀ (transport : Nat → Response) (solver : Nat → SolverResponse)
        (url : String) (solve_url : Option String)
        (headers : List (String × String)) (proxy : Option String)
        (st : SessionState) (k : Nat), k < maxTries →
      (∀ i < k, classify (transport i) = .challenge) →
      (∀ j < k, wellFormedSolverResponse (solver j) = true) →
      (classify (transport k) = .ok ∨ classify (transport k) = .unrelated) →
      (request transport solver url solve_url headers proxy st).result =
        .success (transport k)) := by
  constructor
  · intro r h
    have hgf : (r.status_code == 403 &&
        startsWithStr r.content_type "text/html" && !(r.text == "")) = false := by
      rcases h with h | h | h <;> simp [h]
    rw [classify, if_neg (by simp [hgf])]
  · intro transport solver url solve_url headers proxy st k hk hch hok hcl
    have := requestLoop_prefix_success transport solver url solve_url headers
      proxy k maxTries 0 0 st hk (by simpa using hch) (by simpa using hok)
      (by simpa using hcl)
    simpa using this

theorem claim_C5_witness :
    classify { status_code := 500, content_type := "text/html", text := "x" } =
      .ok ∧
    (request challengeThenOkTransport (fun _ => contractSolverResponse)
      "https://x.example/" none [] none initSessionState).result =
      .success okResponse :=
  ⟨claim_C5.1 { status_code := 500, content_type := "text/html", text := "x" }
      (Or.inl (by decide)),
    claim_C5.2 challengeThenOkTransport (fun _ => contractSolverResponse)
      "https://x.example/" none [] none initSessionState 1 (by decide)
      (fun i hi => by
        have : i = 0 := by omega
        subst this
        exact (by decide : classify challengeResponse = .challenge))
      (fun j hj =>
        (by decide : wellFormedSolverResponse contractSolverResponse = true))
      (Or.inl (by decide))⟩

/-- C6 (amended): every solve request posted to the solver carries
maxTimeout 60000, the cookies snapshot of the jar at call time, the
configured proxy, and - when the caller-supplied solve_url is non-empty -
that solve_url, falling back to the original request url otherwise.  The
amendment ("non-empty") is forced by Python truthiness at source line
111, witnessed by the counterexample below. -/
theorem claim_C6 (transport : Nat → Response) (solver : Nat → SolverResponse)
    (url : String) (solve_url : Option String)
    (headers : List (String × String)) (proxy : Option String)
    (st : SessionState) (hne : solve_url ≠ some "") :
    ∀ pr ∈ (request transport solver url solve_url headers proxy
        st).trace.solverCalls,
      pr.2.maxTimeout = 60000 ∧
      pr.2.url = solve_url.getD url ∧
      pr.2.cookies = pr.1.cookies ∧
      pr.2.proxy = proxy := by
  intro pr hpr
  have hspec := requestLoop_solverCalls_spec transport solver url solve_url
    headers proxy maxTries 0 0 st pr hpr
  have heff : effectiveSolveUrl url solve_url = solve_url.getD url := by
    rcases solve_url with _ | s
    · rfl
    · have hs : ¬s = "" := fun h => hne (by rw [h])
      simp [effectiveSolveUrl, hs]
  rw [hspec, heff]
  exact ⟨rfl, rfl, rfl, rfl⟩

/-- C6 counterexample: with an explicitly supplied (but empty) solve_url,
the solver request carries the original request url, not the
caller-supplied solve_url value - so "url equal to the caller-supplied
solve_url when one was given" fails at solve_url = "". -/
theorem claim_C6_cex :
    ((request challengeThenOkTransport (fun _ => contractSolverResponse)
        "http://target.example/" (some "") [] none
        initSessionState).trace.solverCalls.map (fun pr => pr.2.url)) =
      ["http://target.example/"] ∧
    ("http://target.example/" : String) ≠ "" := by
  exact ⟨rfl, by decide⟩

theorem claim_C6_witness :
    (initSessionState,
      ({ maxTimeout := 60000, url := "http://s.example/", cookies := [],
         proxy := none } : SolveRequest)).2.maxTimeout = 60000 ∧
    (initSessionState,
      ({ maxTimeout := 60000, url := "http://s.example/", cookies := [],
         proxy := none } : SolveRequest)).2.url =
      (some "http://s.example/").getD "http://target.example/" ∧
    (initSessionState,
      ({ maxTimeout := 60000, url := "http://s.example/", cookies := [],
         proxy := none } : SolveRequest)).2.cookies =
      (initSessionState,
        ({ maxTimeout := 60000, url := "http://s.example/", cookies := [],
           proxy := none } : SolveRequest)).1.cookies ∧
    (initSessionState,
      ({ maxTimeout := 60000, url := "http://s.example/", cookies := [],
         proxy := none } : SolveRequest)).2.proxy = none :=
  claim_C6 challengeThenOkTransport (fun _ => contractSolverResponse)
    "http://target.example/" (some "http://s.example/") [] none
    initSessionState (by decide) _ (by decide)

/-- C7: a non-200 solver response fails the solve with the
solver-unavailable error (message naming the status), leaves the session
state untouched, the response body is never consulted, and the full
request call surfaces the error after exactly one solver call. -/
theorem claim_C7 (st : SessionState) (url : String) (proxy : Option String)
    (resp : SolverResponse) (h : resp.status_code ≠ 200) :
    (solveChallenge st url proxy resp).err =
      some (.solverUnavailable
        ("Solver is unavailable: status_code = " ++ toString resp.status_code)) ∧
    (solveChallenge st url proxy resp).state = st ∧
    (∀ b : Json,
      solveChallenge st url proxy { status_code := resp.status_code, body := b } =
        solveChallenge st url proxy resp) ∧
    (∀ (transport : Nat → Response) (solver : Nat → SolverResponse)
        (url' : String) (solve_url : Option String)
        (headers : List (String × String)) (st' : SessionState),
      classify (transport 0) = .challenge → solver 0 = resp →
      (request transport solver url' solve_url headers proxy st').result =
        .failure (.solverUnavailable
          ("Solver is unavailable: status_code = " ++
            toString resp.status_code)) ∧
      (request transport solver url' solve_url headers proxy
        st').trace.solverCalls.length = 1) := by
  refine ⟨?_, ?_, ?_, ?_⟩
  · simp only [solveChallenge, if_pos h]
  · simp only [solveChallenge, if_pos h]
  · intro b
    simp only [solveChallenge, if_pos h]
  · intro transport solver url' solve_url headers st' hcl hsolver
    have herr : (solveChallenge st' (effectiveSolveUrl url' solve_url) proxy
        (solver 0)).err =
        some (.solverUnavailable
          ("Solver is unavailable: status_code = " ++
            toString resp.status_code)) := by
      rw [hsolver]
      simp only [solveChallenge, if_pos h]
    rw [show request transport solver url' solve_url headers proxy st' =
      requestLoop transport solver url' solve_url headers proxy (1 + 1) 0 0 st'
      from rfl,
      requestLoop_succ_challenge_err transport solver url' solve_url headers
        proxy 1 0 0 st' _ hcl herr]
    exact ⟨rfl, rfl⟩

theorem claim_C7_witness :
    (solveChallenge initSessionState "https://x.example/" none
      errorSolverResponse).err =
      some (.solverUnavailable "Solver is unavailable: status_code = 500") ∧
    (solveChallenge initSessionState "https://x.example/" none
      errorSolverResponse).state = initSessionState ∧
    solveChallenge initSessionState "https://x.example/" none
      { status_code := 500, body := .str "ignored" } =
      solveChallenge initSessionState "https://x.example/" none
        errorSolverResponse ∧
    (request challengeThenOkTransport (fun _ => errorSolverResponse)
      "https://x.example/" none [] none initSessionState).result =
      .failure (.solverUnavailable "Solver is unavailable: status_code = 500") ∧
    (request challengeThenOkTransport (fun _ => errorSolverResponse)
      "https://x.example/" none [] none
      initSessionState).trace.solverCalls.length = 1 := by
  have h := claim_C7 initSessionState "https://x.example/" none
    errorSolverResponse (by decide)
  have h4 := h.2.2.2 challengeThenOkTransport (fun _ => errorSolverResponse)
    "https://x.example/" none [] initSessionState
    (by decide : classify challengeResponse = .challenge) rfl
  exact ⟨h.1, h.2.1, h.2.2.1 (.str "ignored"), h4.1, h4.2⟩

/-- C8: a 200 solver response whose JSON body lacks a `solution` key
fails the solve with the protocol error, whose message contains the
target url, the serialized solver response body, and the serialized
outgoing solve request. -/
theorem claim_C8 (st : SessionState) (url : String) (proxy : Option String)
    (resp : SolverResponse)
    (h200 : resp.status_code = 200)
    (hnosol : resp.body.getKey "solution" = none) :
    (solveChallenge st url proxy resp).err =
      some (.solverProtocolError
        ("Can't solve challenge: no solution in response for '" ++ url ++
          "': response: " ++ dumps resp.body ++ " on request: " ++
          dumps (solveRequestJson (buildSolveRequest st url proxy)))) ∧
    (∃ a b : String,
      "Can't solve challenge: no solution in response for '" ++ url ++
        "': response: " ++ dumps resp.body ++ " on request: " ++
        dumps (solveRequestJson (buildSolveRequest st url proxy)) =
      a ++ url ++ b) ∧
    (∃ a b : String,
      "Can't solve challenge: no solution in response for '" ++ url ++
        "': response: " ++ dumps resp.body ++ " on request: " ++
        dumps (solveRequestJson (buildSolveRequest st url proxy)) =
      a ++ dumps resp.body ++ b) ∧
    (∃ a b : String,
      "Can't solve challenge: no solution in response for '" ++ url ++
        "': response: " ++ dumps resp.body ++ " on request: " ++
        dumps (solveRequestJson (buildSolveRequest st url proxy)) =
      a ++ dumps (solveRequestJson (buildSolveRequest st url proxy)) ++ b) := by
  refine ⟨?_, ?_, ?_, ?_⟩
  · simp only [solveChallenge, h200, hnosol, ne_eq, not_true_eq_false,
      if_false]
  · exact ⟨"Can't solve challenge: no solution in response for '",
      "': response: " ++ dumps resp.body ++ " on request: " ++
        dumps (solveRequestJson (buildSolveRequest st url proxy)),
      by simp [String.append_assoc]⟩
  · exact ⟨"Can't solve challenge: no solution in response for '" ++ url ++
      "': response: ",
      " on request: " ++ dumps (solveRequestJson (buildSolveRequest st url proxy)),
      by simp [String.append_assoc]⟩
  · exact ⟨"Can't solve challenge: no solution in response for '" ++ url ++
      "': response: " ++ dumps resp.body ++ " on request: ", "",
      by simp [String.append_assoc]⟩

theorem claim_C8_witness :
    (solveChallenge initSessionState "https://x.example/" none
      emptySolverResponse).err =
      some (.solverProtocolError
        ("Can't solve challenge: no solution in response for '" ++
          "https://x.example/" ++ "': response: " ++
          dumps emptySolverResponse.body ++ " on request: " ++
          dumps (solveRequestJson (buildSolveRequest initSessionState
            "https://x.example/" none)))) ∧
    (∃ a b : String,
      "Can't solve challenge: no solution in response for '" ++
        "https://x.example/" ++ "': response: " ++
        dumps emptySolverResponse.body ++ " on request: " ++
        dumps (solveRequestJson (buildSolveRequest initSessionState
          "https://x.example/" none)) =
      a ++ "https://x.example/" ++ b) ∧
    (∃ a b : String,
      "Can't solve challenge: no solution in response for '" ++
        "https://x.example/" ++ "': response: " ++
        dumps emptySolverResponse.body ++ " on request: " ++
        dumps (solveRequestJson (buildSolveRequest initSessionState
          "https://x.example/" none)) =
      a ++ dumps emptySolverResponse.body ++ b) ∧
    (∃ a b : String,
      "Can't solve challenge: no solution in response for '" ++
        "https://x.example/" ++ "': response: " ++
        dumps emptySolverResponse.body ++ " on request: " ++
        dumps (solveRequestJson (buildSolveRequest initSessionState
          "https://x.example/" none)) =
      a ++ dumps (solveRequestJson (buildSolveRequest initSessionState
        "https://x.example/" none)) ++ b) :=
  claim_C8 initSessionState "https://x.example/" none emptySolverResponse
    (by decide) rfl

/-- C9: the headers sent on every attempt are the caller's headers with
`user-agent` overwritten by the session's current user-agent and
`cache-control` overwritten by "no-cache"; every other caller entry
passes through unchanged. -/
theorem claim_C9 :
    (∀ (headers : List (String × String)) (ua k : String),
      hdrGet (sendHeaders headers ua) "user-agent" = some ua ∧
      hdrGet (sendHeaders headers ua) "cache-control" = some "no-cache" ∧
      (k ≠ "user-agent" → k ≠ "cache-control" →
        hdrGet (sendHeaders headers ua) k = hdrGet headers k)) ∧
    (∀ (transport : Nat → Response) (solver : Nat → SolverResponse)
        (url : String) (solve_url : Option String)
        (headers : List (String × String)) (proxy : Option String)
        (st : SessionState),
      ∀ pr ∈ (request transport solver url solve_url headers proxy
          st).trace.attempts,
        pr.2 = sendHeaders headers pr.1.user_agent) := by
  constructor
  · intro headers ua k
    refine ⟨?_, ?_, ?_⟩
    · rw [sendHeaders, hdrGet_hdrSet, if_neg (by decide), hdrGet_hdrSet,
        if_pos rfl]
    · rw [sendHeaders, hdrGet_hdrSet, if_pos rfl]
    · intro h1 h2
      rw [sendHeaders, hdrGet_hdrSet, if_neg h2, hdrGet_hdrSet, if_neg h1]
  · intro transport solver url solve_url headers proxy st pr hpr
    exact requestLoop_attempts_spec transport solver url solve_url headers
      proxy maxTries 0 0 st pr hpr

theorem claim_C9_witness :
    hdrGet (sendHeaders [("accept", "text/plain"), ("user-agent", "caller")]
      "UA0") "user-agent" = some "UA0" ∧
    hdrGet (sendHeaders [("accept", "text/plain"), ("user-agent", "caller")]
      "UA0") "cache-control" = some "no-cache" ∧
    hdrGet (sendHeaders [("accept", "text/plain"), ("user-agent", "caller")]
      "UA0") "accept" =
      hdrGet [("accept", "text/plain"), ("user-agent", "caller")] "accept" := by
  have h := claim_C9.1 [("accept", "text/plain"), ("user-agent", "caller")]
    "UA0" "accept"
  exact ⟨h.1, h.2.1, h.2.2 (by decide) (by decide)⟩

/-- C10: a solve that fails - solver status not 200, or 200 without a
`solution` key - raises without touching the session state: user-agent
and jar after the failed solve equal what they were before, both at the
solver-gateway level and for the state of the whole call. -/
theorem claim_C10 (st : SessionState) (url : String) (proxy : Option String)
    (resp : SolverResponse)
    (h : resp.status_code ≠ 200 ∨
      (resp.status_code = 200 ∧ resp.body.getKey "solution" = none)) :
    (solveChallenge st url proxy resp).state = st ∧
    (solveChallenge st url proxy resp).err.isSome = true ∧
    (∀ (transport : Nat → Response) (solver : Nat → SolverResponse)
        (url' : String) (solve_url : Option String)
        (headers : List (String × String)) (st' : SessionState),
      classify (transport 0) = .challenge → solver 0 = resp →
      (request transport solver url' solve_url headers proxy st').state =
        st') := by
  have hmain : ∀ st0 : SessionState, ∀ u : String,
      (solveChallenge st0 u proxy resp).state = st0 ∧
      (solveChallenge st0 u proxy resp).err.isSome = true := by
    intro st0 u
    rcases h with h | ⟨h200, hnosol⟩
    · constructor
      · simp [solveChallenge, if_pos h]
      · simp [solveChallenge, if_pos h]
    · constructor
      · simp [solveChallenge, h200, hnosol]
      · simp [solveChallenge, h200, hnosol]
  refine ⟨(hmain st url).1, (hmain st url).2, ?_⟩
  · intro transport solver url' solve_url headers st' hcl hsolver
    have hpair := hmain st' (effectiveSolveUrl url' solve_url)
    rcases herr : (solveChallenge st' (effectiveSolveUrl url' solve_url) proxy
        resp).err with _ | e
    · rw [herr] at hpair
      simp at hpair
    · rw [show request transport solver url' solve_url headers proxy st' =
        requestLoop transport solver url' solve_url headers proxy (1 + 1) 0 0
          st' from rfl,
        requestLoop_succ_challenge_err transport solver url' solve_url headers
          proxy 1 0 0 st' e hcl (by rw [hsolver]; exact herr)]
      rw [hsolver]
      exact hpair.1

theorem claim_C10_witness :
    (solveChallenge preexistingState "https://x.example/" none
      emptySolverResponse).state = preexistingState ∧
    (solveChallenge preexistingState "https://x.example/" none
      emptySolverResponse).err.isSome = true ∧
    (request challengeThenOkTransport (fun _ => emptySolverResponse)
      "https://x.example/" none [] none preexistingState).state =
      preexistingState := by
  have h := claim_C10 preexistingState "https://x.example/" none
    emptySolverResponse (Or.inr ⟨by decide, rfl⟩)
  exact ⟨h.1, h.2.1,
    h.2.2 challengeThenOkTransport (fun _ => emptySolverResponse)
      "https://x.example/" none [] preexistingState
      (by decide : classify challengeResponse = .challenge) rfl⟩

end FlareBypasser
